import Mathlib

/-!
Verification of the loudness-histogram channel logic of the master_me plugin
(`src/plugin/MasterMePlugin.cpp`, class `MasterMePlugin`).

Modelling conventions:
* C `float` loudness values are modelled as rationals (`Rat`); the only float
  operations the embedded code performs on them are `std::max`, assignment of
  the literal `-70.f`, and passing them around, all exact.
* Raw audio samples are modelled by `FloatVal`, which distinguishes finite
  values from non-finite ones (NaN or infinity), because `run` only inspects
  them through `std::isfinite`.
* The `uint` fields (`numFramesSoFar`, `bufferSizeForHistogram`) are `Nat`
  with arithmetic reduced `% 2^32` where C unsigned overflow could occur.
* `__builtin_unreachable()` (undefined behaviour) is modelled by `run`
  returning `none`; `DISTRHO_SAFE_ASSERT_RETURN(cond,)` is an early return
  of the current state; the non-fatal `DISTRHO_SAFE_ASSERT` only logs and is
  a no-op here.
* The generated faust DSP (`dsp->compute` and the `lufs_in` / `lufs_out`
  parameter reads) is an external collaborator: `run` takes the two
  instantaneous loudness readings produced by the callback as arguments.
-/

/-- A raw audio sample as seen through `std::isfinite`: either a finite value
or a non-finite one (NaN, +inf, -inf). -/
inductive FloatVal where
  | finite (q : Rat)
  | notFinite
  deriving DecidableEq

/-- `std::isfinite`. -/
def FloatVal.isFinite : FloatVal → Bool
  | .finite _ => true
  | .notFinite => false

/-- Modelled from the spec: the payload `MasterMeHistogramFifos` living in the
shared-memory segment (declared outside `src/`): two loudness rings plus the
`closed` flag.  Each ring is abstracted as the list of samples written to it,
in write order (spec 4.2: `write` is non-blocking and never fails; capacity
and the overwrite-oldest overflow policy are not needed by the claims). -/
structure MasterMeHistogramFifos where
  lufsIn : List Rat
  lufsOut : List Rat
  closed : Bool
  deriving DecidableEq, Repr

/-- Modelled from the spec: the minimum histogram window floor
`kMinimumHistogramBufferSize`, declared in the generated
`DistrhoPluginInfo.h` (not under `src/`).  The claims depend only on the
`max` formula, never on the concrete value. -/
def kMinimumHistogramBufferSize : Nat := 4096

/-- Index of the histogram-buffer-size entry among the extra (non-faust)
parameters, relative to `kParameterCount`. -/
def kExtraParameterHistogramBufferSize : Nat := 0

/-- Modulus of the C `uint` fields (32-bit unsigned). -/
def uint32Mod : Nat := 2 ^ 32

/-- The histogram-related state of `MasterMePlugin`.  `shm` is the payload of
`histogramSharedData` when created/connected (`none` = unattached, and
`getDataPointer()` returns null); `lufsInBound` / `lufsOutBound` record
whether `lufsInFifo` / `lufsOutFifo` hold a non-null fifo pointer. -/
structure PluginState where
  mode : String
  bufferSizeForHistogram : Nat
  numFramesSoFar : Nat
  lufsInBound : Bool
  lufsOutBound : Bool
  shm : Option MasterMeHistogramFifos
  highestLufsInValue : Rat
  highestLufsOutValue : Rat
  histogramActive : Bool
  deriving DecidableEq, Repr

namespace MasterMePlugin

/-- The constructor: member initializers (`numFramesSoFar = 0`, peaks at
`-70.f`, `histogramActive = false`, fifo controls and shared memory
unattached) followed by
`bufferSizeForHistogram = std::max(kMinimumHistogramBufferSize, getBufferSize())`. -/
def init (hostBufferSize : Nat) : PluginState where
  mode := ""
  bufferSizeForHistogram := max kMinimumHistogramBufferSize hostBufferSize
  numFramesSoFar := 0
  lufsInBound := false
  lufsOutBound := false
  shm := none
  highestLufsInValue := -70
  highestLufsOutValue := -70
  histogramActive := false

/-- `activate()`: `numFramesSoFar = 0;` and nothing else. -/
def activate (s : PluginState) : PluginState :=
  { s with numFramesSoFar := 0 }

/-- `bufferSizeChanged(newBufferSize)`:
`bufferSizeForHistogram = std::max(kMinimumHistogramBufferSize, newBufferSize);`. -/
def bufferSizeChanged (s : PluginState) (newBufferSize : Nat) : PluginState :=
  { s with bufferSizeForHistogram := max kMinimumHistogramBufferSize newBufferSize }

/-- The extra-parameter branch of `getParameterValue` (the faust-generated
parameters below `kParameterCount` are external): the
`kExtraParameterHistogramBufferSize` case returns `bufferSizeForHistogram`
(an integer parameter, exactly representable), the default case `0.0f`. -/
def getExtraParameterValue (s : PluginState) (extraIndex : Nat) : Rat :=
  if extraIndex = kExtraParameterHistogramBufferSize then
    (s.bufferSizeForHistogram : Rat)
  else
    0

/-- Modelled from the spec: `MasterMeFifoControl::write` on `lufsInFifo`
(declared outside `src/`): appends the sample to the bound ring inside the
shared payload; a control with no fifo bound does not write. -/
def lufsInWrite (s : PluginState) (v : Rat) : PluginState :=
  if s.lufsInBound then
    match s.shm with
    | some d => { s with shm := some { d with lufsIn := d.lufsIn ++ [v] } }
    | none => s
  else s

/-- Modelled from the spec: `MasterMeFifoControl::write` on `lufsOutFifo`. -/
def lufsOutWrite (s : PluginState) (v : Rat) : PluginState :=
  if s.lufsOutBound then
    match s.shm with
    | some d => { s with shm := some { d with lufsOut := d.lufsOut ++ [v] } }
    | none => s
  else s

/-- `setState(key, value)`.  The shared-memory `connect(value)` call is an
external OS primitive, so its result is passed in as `connectResult`
(`none` = connect returned null).  The `"histogram"` branch first closes an
existing attachment (unbinding both fifo controls), then connects;
`DISTRHO_SAFE_ASSERT_RETURN(fifos != nullptr,)` aborts on a failed connect;
on success both fifos are bound and `histogramActive = true`. -/
def setState (s : PluginState) (key value : String)
    (connectResult : Option MasterMeHistogramFifos) : PluginState :=
  if key = "mode" then
    { s with mode := value }
  else if key = "histogram" then
    let s1 : PluginState :=
      if s.shm.isSome then
        { s with lufsInBound := false, lufsOutBound := false, shm := none }
      else s
    match connectResult with
    | none => s1
    | some fifos =>
        { s1 with
          shm := some fifos
          lufsInBound := true
          lufsOutBound := true
          histogramActive := true }
  else s

/-- The `run` body after the finiteness loop:
`dsp->compute` (external; `lufsIn` / `lufsOut` are the instantaneous
parameter readings it produces), peak update by `std::max`,
`numFramesSoFar += frames` (uint), and the flush block. -/
def runBody (s : PluginState) (frames : Nat) (lufsIn lufsOut : Rat) : PluginState :=
  let s1 : PluginState :=
    { s with
      highestLufsInValue := max s.highestLufsInValue lufsIn
      highestLufsOutValue := max s.highestLufsOutValue lufsOut
      numFramesSoFar := (s.numFramesSoFar + frames) % uint32Mod }
  if s1.bufferSizeForHistogram ≤ s1.numFramesSoFar then
    let s2 : PluginState :=
      { s1 with numFramesSoFar := s1.numFramesSoFar - s1.bufferSizeForHistogram }
    if s2.histogramActive then
      match s2.shm with
      | none => s2
      | some data =>
          if data.closed then
            { s2 with
              histogramActive := false
              highestLufsInValue := -70
              highestLufsOutValue := -70 }
          else
            let s3 := lufsOutWrite (lufsInWrite s2 s2.highestLufsInValue) s2.highestLufsOutValue
            { s3 with highestLufsInValue := -70, highestLufsOutValue := -70 }
    else
      { s2 with highestLufsInValue := -70, highestLufsOutValue := -70 }
  else s1

/-- The per-sample finiteness loop of `run`:
`for i in [0, frames)`, each of `inputs[0][i]`, `inputs[1][i]`,
`outputs[0][i]`, `outputs[1][i]` must be finite, otherwise
`__builtin_unreachable()` is reached. -/
def finiteCheckLoop (in0 in1 out0 out1 : Nat → FloatVal) : Nat → Bool
  | 0 => true
  | i + 1 =>
      finiteCheckLoop in0 in1 out0 out1 i &&
        ((in0 i).isFinite && (in1 i).isFinite && (out0 i).isFinite && (out1 i).isFinite)

/-- `run(inputs, outputs, frames)`.  The audio buffers are the four channel
pointers; hitting `__builtin_unreachable()` (a non-finite sample) makes the
callback's behaviour undefined, modelled as `none`. -/
def run (s : PluginState) (in0 in1 out0 out1 : Nat → FloatVal) (frames : Nat)
    (lufsIn lufsOut : Rat) : Option PluginState :=
  if finiteCheckLoop in0 in1 out0 out1 frames then
    some (runBody s frames lufsIn lufsOut)
  else
    none

/-- All four channel buffers hold finite samples for the first `frames`
frames. -/
def buffersFinite (in0 in1 out0 out1 : Nat → FloatVal) (frames : Nat) : Prop :=
  ∀ i < frames,
    (in0 i).isFinite = true ∧ (in1 i).isFinite = true ∧
    (out0 i).isFinite = true ∧ (out1 i).isFinite = true

instance (in0 in1 out0 out1 : Nat → FloatVal) (frames : Nat) :
    Decidable (buffersFinite in0 in1 out0 out1 frames) :=
  Nat.decidableBallLT _ _

/-- The flush condition of `run` as seen from the pre-state:
after `numFramesSoFar += frames`, the counter reaches
`bufferSizeForHistogram`. -/
def flushReached (s : PluginState) (frames : Nat) : Prop :=
  s.bufferSizeForHistogram ≤ (s.numFramesSoFar + frames) % uint32Mod

instance (s : PluginState) (frames : Nat) : Decidable (flushReached s frames) :=
  inferInstanceAs (Decidable (_ ≤ _))

/-- One host-driven interaction with the plugin. -/
inductive Event where
  | run (in0 in1 out0 out1 : Nat → FloatVal) (frames : Nat) (lufsIn lufsOut : Rat)
  | setState (key value : String) (connectResult : Option MasterMeHistogramFifos)
  | activate
  | bufferSizeChanged (newBufferSize : Nat)

/-- Whether the event is a `setState` on the `"histogram"` key (the explicit
reconnect path, the only way to re-activate channel writes). -/
def Event.isHistogramReconnect : Event → Bool
  | .setState key _ _ => key == "histogram"
  | _ => false

/-- Whether the event is a buffer-size-change notification. -/
def Event.isBufferSizeChanged : Event → Bool
  | .bufferSizeChanged _ => true
  | _ => false

/-- One step of the plugin under a host event. -/
def step (s : PluginState) : Event → Option PluginState
  | .run in0 in1 out0 out1 frames lufsIn lufsOut =>
      run s in0 in1 out0 out1 frames lufsIn lufsOut
  | .setState key value connectResult => some (setState s key value connectResult)
  | .activate => some (activate s)
  | .bufferSizeChanged n => some (bufferSizeChanged s n)

/-- A sequence of host events, stopping at undefined behaviour. -/
def stepMany (s : PluginState) : List Event → Option PluginState
  | [] => some s
  | e :: es =>
      match step s e with
      | none => none
      | some s1 => stepMany s1 es

/-! Concrete states and buffers used to instantiate the theorems below. -/

/-- Audio buffers holding silence (finite samples everywhere). -/
def allZeroBuffer : Nat → FloatVal := fun _ => FloatVal.finite 0

/-- A shared payload whose consumer has set the `closed` flag. -/
def closedExampleFifos : MasterMeHistogramFifos where
  lufsIn := []
  lufsOut := []
  closed := true

/-- A live shared payload (consumer attached, not closed). -/
def openExampleFifos : MasterMeHistogramFifos where
  lufsIn := []
  lufsOut := []
  closed := false

/-- A plugin state with the channel attached and active, peaks accumulated to
`-20`, and the frame counter 6 frames short of the 4096-frame window. -/
def closedExample : PluginState where
  mode := ""
  bufferSizeForHistogram := 4096
  numFramesSoFar := 4090
  lufsInBound := true
  lufsOutBound := true
  shm := some closedExampleFifos
  highestLufsInValue := -20
  highestLufsOutValue := -20
  histogramActive := true

/-- Like `closedExample` but with a live (not closed) payload. -/
def openExample : PluginState := { closedExample with shm := some openExampleFifos }

/-- `closedExample` after an `activate` event. -/
def traceResultExample : PluginState := { closedExample with numFramesSoFar := 0 }

/-- `openExample` after a 6-frame callback that flushes: one `-20` sample on
each ring, peaks back at the floor, counter at 0. -/
def openFlushResult : PluginState :=
  { openExample with
    shm := some { lufsIn := [-20], lufsOut := [-20], closed := false }
    numFramesSoFar := 0
    highestLufsInValue := -70
    highestLufsOutValue := -70 }

/-- `openExample` after a 7-frame callback that flushes with one frame of
overshoot carried over. -/
def openFlushCarryResult : PluginState := { openFlushResult with numFramesSoFar := 1 }

/-! Helper lemmas about the branches of `runBody`, shared by the claim
theorems below. -/

theorem finiteCheckLoop_eq_true (in0 in1 out0 out1 : Nat → FloatVal) (frames : Nat)
    (h : buffersFinite in0 in1 out0 out1 frames) :
    finiteCheckLoop in0 in1 out0 out1 frames = true := by
  induction frames with
  | zero => rfl
  | succ n ih =>
      have hn : buffersFinite in0 in1 out0 out1 n := fun i hi => h i (Nat.lt_succ_of_lt hi)
      have hlast := h n (Nat.lt_succ_self n)
      simp [finiteCheckLoop, ih hn, hlast.1, hlast.2.1, hlast.2.2.1, hlast.2.2.2]

theorem run_eq_runBody (s : PluginState) (in0 in1 out0 out1 : Nat → FloatVal)
    (frames : Nat) (lufsIn lufsOut : Rat)
    (h : buffersFinite in0 in1 out0 out1 frames) :
    run s in0 in1 out0 out1 frames lufsIn lufsOut = some (runBody s frames lufsIn lufsOut) := by
  simp [run, finiteCheckLoop_eq_true in0 in1 out0 out1 frames h]

theorem runBody_not_flush (s : PluginState) (frames : Nat) (lufsIn lufsOut : Rat)
    (h : ¬ flushReached s frames) :
    runBody s frames lufsIn lufsOut =
      { s with
        highestLufsInValue := max s.highestLufsInValue lufsIn
        highestLufsOutValue := max s.highestLufsOutValue lufsOut
        numFramesSoFar := (s.numFramesSoFar + frames) % uint32Mod } := by
  rw [flushReached] at h
  simp [runBody, h]

theorem runBody_flush_closed (s : PluginState) (d : MasterMeHistogramFifos)
    (frames : Nat) (lufsIn lufsOut : Rat)
    (hf : flushReached s frames) (hact : s.histogramActive = true)
    (hshm : s.shm = some d) (hcl : d.closed = true) :
    runBody s frames lufsIn lufsOut =
      { s with
        numFramesSoFar := (s.numFramesSoFar + frames) % uint32Mod - s.bufferSizeForHistogram
        histogramActive := false
        highestLufsInValue := -70
        highestLufsOutValue := -70 } := by
  rw [flushReached] at hf
  simp [runBody, hf, hact, hshm, hcl]

theorem runBody_flush_open (s : PluginState) (d : MasterMeHistogramFifos)
    (frames : Nat) (lufsIn lufsOut : Rat)
    (hf : flushReached s frames) (hact : s.histogramActive = true)
    (hshm : s.shm = some d) (hcl : d.closed = false)
    (hbin : s.lufsInBound = true) (hbout : s.lufsOutBound = true) :
    runBody s frames lufsIn lufsOut =
      { s with
        shm := some { d with
          lufsIn := d.lufsIn ++ [max s.highestLufsInValue lufsIn]
          lufsOut := d.lufsOut ++ [max s.highestLufsOutValue lufsOut] }
        numFramesSoFar := (s.numFramesSoFar + frames) % uint32Mod - s.bufferSizeForHistogram
        highestLufsInValue := -70
        highestLufsOutValue := -70 } := by
  rw [flushReached] at hf
  simp [runBody, lufsInWrite, lufsOutWrite, hf, hact, hshm, hcl, hbin, hbout]

theorem runBody_flush_inactive (s : PluginState) (frames : Nat) (lufsIn lufsOut : Rat)
    (hf : flushReached s frames) (hact : s.histogramActive = false) :
    runBody s frames lufsIn lufsOut =
      { s with
        numFramesSoFar := (s.numFramesSoFar + frames) % uint32Mod - s.bufferSizeForHistogram
        highestLufsInValue := -70
        highestLufsOutValue := -70 } := by
  rw [flushReached] at hf
  simp [runBody, hf, hact]

theorem runBody_flush_nullData (s : PluginState) (frames : Nat) (lufsIn lufsOut : Rat)
    (hf : flushReached s frames) (hact : s.histogramActive = true) (hshm : s.shm = none) :
    runBody s frames lufsIn lufsOut =
      { s with
        highestLufsInValue := max s.highestLufsInValue lufsIn
        highestLufsOutValue := max s.highestLufsOutValue lufsOut
        numFramesSoFar := (s.numFramesSoFar + frames) % uint32Mod - s.bufferSizeForHistogram } := by
  rw [flushReached] at hf
  simp [runBody, hf, hact, hshm]

theorem lufsInWrite_bufferSize (s : PluginState) (v : Rat) :
    (lufsInWrite s v).bufferSizeForHistogram = s.bufferSizeForHistogram := by
  rw [lufsInWrite]
  split
  · split <;> rfl
  · rfl

theorem lufsOutWrite_bufferSize (s : PluginState) (v : Rat) :
    (lufsOutWrite s v).bufferSizeForHistogram = s.bufferSizeForHistogram := by
  rw [lufsOutWrite]
  split
  · split <;> rfl
  · rfl

theorem runBody_bufferSize (s : PluginState) (frames : Nat) (lufsIn lufsOut : Rat) :
    (runBody s frames lufsIn lufsOut).bufferSizeForHistogram = s.bufferSizeForHistogram := by
  simp only [runBody]
  split
  · split
    · split
      · rfl
      · split
        · rfl
        · simp [lufsInWrite_bufferSize, lufsOutWrite_bufferSize]
    · rfl
  · rfl

theorem lufsInWrite_numFramesSoFar (s : PluginState) (v : Rat) :
    (lufsInWrite s v).numFramesSoFar = s.numFramesSoFar := by
  rw [lufsInWrite]
  split
  · split <;> rfl
  · rfl

theorem lufsOutWrite_numFramesSoFar (s : PluginState) (v : Rat) :
    (lufsOutWrite s v).numFramesSoFar = s.numFramesSoFar := by
  rw [lufsOutWrite]
  split
  · split <;> rfl
  · rfl

theorem runBody_counter_flush (s : PluginState) (frames : Nat) (lufsIn lufsOut : Rat)
    (hf : flushReached s frames) :
    (runBody s frames lufsIn lufsOut).numFramesSoFar =
      (s.numFramesSoFar + frames) % uint32Mod - s.bufferSizeForHistogram := by
  rw [flushReached] at hf
  simp only [runBody]
  split
  · split
    · split
      · rfl
      · split
        · rfl
        · simp [lufsInWrite_numFramesSoFar, lufsOutWrite_numFramesSoFar]
    · rfl
  · exact absurd hf (by assumption)

theorem runBody_closed_detect (s : PluginState) (d : MasterMeHistogramFifos)
    (frames : Nat) (lufsIn lufsOut : Rat)
    (hshm : s.shm = some d) (hcl : d.closed = true) (hf : flushReached s frames) :
    (runBody s frames lufsIn lufsOut).histogramActive = false := by
  cases hact : s.histogramActive with
  | false => rw [runBody_flush_inactive s frames lufsIn lufsOut hf hact]; exact hact
  | true => rw [runBody_flush_closed s d frames lufsIn lufsOut hf hact hshm hcl]

theorem runBody_shm_closed (s : PluginState) (d : MasterMeHistogramFifos)
    (frames : Nat) (lufsIn lufsOut : Rat)
    (hshm : s.shm = some d) (hcl : d.closed = true) :
    (runBody s frames lufsIn lufsOut).shm = some d := by
  by_cases hf : flushReached s frames
  · cases hact : s.histogramActive with
    | false => rw [runBody_flush_inactive s frames lufsIn lufsOut hf hact]; exact hshm
    | true => rw [runBody_flush_closed s d frames lufsIn lufsOut hf hact hshm hcl]; exact hshm
  · rw [runBody_not_flush s frames lufsIn lufsOut hf]; exact hshm

theorem runBody_inactive (s : PluginState) (frames : Nat) (lufsIn lufsOut : Rat)
    (hact : s.histogramActive = false) :
    (runBody s frames lufsIn lufsOut).shm = s.shm ∧
      (runBody s frames lufsIn lufsOut).histogramActive = false := by
  by_cases hf : flushReached s frames
  · rw [runBody_flush_inactive s frames lufsIn lufsOut hf hact]
    exact ⟨rfl, hact⟩
  · rw [runBody_not_flush s frames lufsIn lufsOut hf]
    exact ⟨rfl, hact⟩

theorem setState_shm_of_ne (s : PluginState) (key value : String)
    (connectResult : Option MasterMeHistogramFifos) (hne : ¬ key = "histogram") :
    (setState s key value connectResult).shm = s.shm := by
  rw [setState]
  by_cases hm : key = "mode"
  · rw [if_pos hm]
  · rw [if_neg hm, if_neg hne]

theorem step_preserves_closed_shm (s s1 : PluginState) (e : Event)
    (d : MasterMeHistogramFifos)
    (hshm : s.shm = some d) (hcl : d.closed = true)
    (hne : e.isHistogramReconnect = false)
    (hstep : step s e = some s1) : s1.shm = some d := by
  cases e with
  | run in0 in1 out0 out1 frames li lo =>
      rw [step, run] at hstep
      by_cases hc : finiteCheckLoop in0 in1 out0 out1 frames = true
      · rw [if_pos hc] at hstep
        cases hstep
        exact runBody_shm_closed s d frames li lo hshm hcl
      · rw [if_neg hc] at hstep
        cases hstep
  | setState key value conn =>
      rw [step] at hstep
      cases hstep
      rw [Event.isHistogramReconnect] at hne
      exact (setState_shm_of_ne s key value conn (by simpa using hne)).trans hshm
  | activate =>
      rw [step] at hstep
      cases hstep
      exact hshm
  | bufferSizeChanged n =>
      rw [step] at hstep
      cases hstep
      exact hshm

theorem stepMany_preserves_closed_shm (evs : List Event) (s s' : PluginState)
    (d : MasterMeHistogramFifos)
    (hshm : s.shm = some d) (hcl : d.closed = true)
    (hne : ∀ e ∈ evs, e.isHistogramReconnect = false)
    (h : stepMany s evs = some s') : s'.shm = some d := by
  induction evs generalizing s with
  | nil =>
      rw [stepMany] at h
      cases h
      exact hshm
  | cons e es ih =>
      rw [stepMany] at h
      cases hstep : step s e with
      | none => rw [hstep] at h; cases h
      | some s1 =>
          rw [hstep] at h
          exact ih s1
            (step_preserves_closed_shm s s1 e d hshm hcl (hne e (by simp)) hstep)
            (fun e' he' => hne e' (by simp [he'])) h

theorem lufsInWrite_shm_cases (s : PluginState) (v : Rat) :
    (lufsInWrite s v).shm = s.shm ∨
      ∃ d, s.shm = some d ∧
        (lufsInWrite s v).shm = some { d with lufsIn := d.lufsIn ++ [v] } := by
  rw [lufsInWrite]
  split
  · split
    next d heq => right; exact ⟨d, heq, rfl⟩
    next heq => left; rfl
  · left; rfl

theorem lufsOutWrite_shm_cases (s : PluginState) (v : Rat) :
    (lufsOutWrite s v).shm = s.shm ∨
      ∃ d, s.shm = some d ∧
        (lufsOutWrite s v).shm = some { d with lufsOut := d.lufsOut ++ [v] } := by
  rw [lufsOutWrite]
  split
  · split
    next d heq => right; exact ⟨d, heq, rfl⟩
    next heq => left; rfl
  · left; rfl

theorem writes_shm_growth (t : PluginState) (v w : Rat) (d d' : MasterMeHistogramFifos)
    (hshm : t.shm = some d)
    (h : (lufsOutWrite (lufsInWrite t v) w).shm = some d') :
    d'.lufsIn.length ≤ d.lufsIn.length + 1 ∧ d'.lufsOut.length ≤ d.lufsOut.length + 1 := by
  rcases lufsOutWrite_shm_cases (lufsInWrite t v) w with h2 | ⟨d2, hd2, h2⟩ <;>
    rcases lufsInWrite_shm_cases t v with h1 | ⟨d1, hd1, h1⟩
  · rw [h2, h1, hshm] at h
    cases h
    omega
  · rw [hshm] at hd1
    cases hd1
    rw [h2, h1] at h
    cases h
    simp
  · rw [h1, hshm] at hd2
    cases hd2
    rw [h2] at h
    cases h
    simp
  · rw [hshm] at hd1
    cases hd1
    rw [h1] at hd2
    cases hd2
    rw [h2] at h
    cases h
    simp

theorem runBody_shm_growth (s : PluginState) (frames : Nat) (lufsIn lufsOut : Rat)
    (d d' : MasterMeHistogramFifos)
    (hshm : s.shm = some d) (hshm' : (runBody s frames lufsIn lufsOut).shm = some d') :
    d'.lufsIn.length ≤ d.lufsIn.length + 1 ∧ d'.lufsOut.length ≤ d.lufsOut.length + 1 := by
  simp only [runBody] at hshm'
  split at hshm'
  · split at hshm'
    · split at hshm'
      · rw [hshm] at hshm'
        cases hshm'
        omega
      · split at hshm'
        · rw [hshm] at hshm'
          cases hshm'
          omega
        · exact writes_shm_growth _ _ _ d d' (by simpa using hshm) hshm'
    · rw [hshm] at hshm'
      cases hshm'
      omega
  · rw [hshm] at hshm'
    cases hshm'
    omega

theorem setState_bufferSize (s : PluginState) (key value : String)
    (connectResult : Option MasterMeHistogramFifos) :
    (setState s key value connectResult).bufferSizeForHistogram = s.bufferSizeForHistogram := by
  rw [setState]
  split
  · rfl
  · split
    · cases connectResult <;> cases hs : s.shm <;> simp [hs]
    · rfl

theorem step_bufferSize (s s' : PluginState) (e : Event)
    (hne : e.isBufferSizeChanged = false) (hstep : step s e = some s') :
    s'.bufferSizeForHistogram = s.bufferSizeForHistogram := by
  cases e with
  | run in0 in1 out0 out1 frames li lo =>
      rw [step, run] at hstep
      by_cases hc : finiteCheckLoop in0 in1 out0 out1 frames = true
      · rw [if_pos hc] at hstep
        cases hstep
        exact runBody_bufferSize s frames li lo
      · rw [if_neg hc] at hstep
        cases hstep
  | setState key value conn =>
      rw [step] at hstep
      cases hstep
      exact setState_bufferSize s key value conn
  | activate =>
      rw [step] at hstep
      cases hstep
      rfl
  | bufferSizeChanged n =>
      exact absurd hne (by simp [Event.isBufferSizeChanged])

/-! The claim theorems. -/

/-- C1: once the consumer has set the `closed` flag of the attached payload,
then over any sequence of host events containing no `setState` on the
`"histogram"` key the payload — both loudness rings included — is never
written again; any later callback that reaches a flush boundary leaves
`histogramActive = false` (the flag is detected at the next flush, within one
measurement window); and an explicit reconnect through the `"histogram"`
state key re-activates channel writes. -/
theorem closed_flag_stops_writes_until_reconnect
    (s s' : PluginState) (evs : List Event) (d : MasterMeHistogramFifos)
    (hshm : s.shm = some d) (hcl : d.closed = true)
    (hnoreconnect : ∀ e ∈ evs, e.isHistogramReconnect = false)
    (htrace : stepMany s evs = some s') :
    s'.shm = some d ∧
    (∀ in0 in1 out0 out1 frames lufsIn lufsOut t,
      step s' (Event.run in0 in1 out0 out1 frames lufsIn lufsOut) = some t →
      t.shm = some d ∧ (flushReached s' frames → t.histogramActive = false)) ∧
    (∀ value fifos,
      (setState s' "histogram" value (some fifos)).histogramActive = true) := by
  have hs' : s'.shm = some d :=
    stepMany_preserves_closed_shm evs s s' d hshm hcl hnoreconnect htrace
  refine ⟨hs', ?_, ?_⟩
  · intro in0 in1 out0 out1 frames lufsIn lufsOut t hstep
    constructor
    · exact step_preserves_closed_shm s' t
        (Event.run in0 in1 out0 out1 frames lufsIn lufsOut) d hs' hcl rfl hstep
    · intro hf
      rw [step, run] at hstep
      by_cases hc : finiteCheckLoop in0 in1 out0 out1 frames = true
      · rw [if_pos hc] at hstep
        cases hstep
        exact runBody_closed_detect s' d frames lufsIn lufsOut hs' hcl hf
      · rw [if_neg hc] at hstep
        cases hstep
  · intro value fifos
    rw [setState, if_neg (by decide : ¬ ("histogram" : String) = "mode"), if_pos rfl]

/-- C1 witness: a concrete closed-flagged state, a reconnect-free trace. -/
theorem closed_flag_stops_writes_until_reconnect_witness :
    stepMany closedExample [Event.activate] = some traceResultExample ∧
    traceResultExample.shm = some closedExampleFifos :=
  ⟨by decide,
   (closed_flag_stops_writes_until_reconnect closedExample traceResultExample
      [Event.activate] closedExampleFifos (by decide) (by decide) (by decide) (by decide)).1⟩

/-- C2 counterexample: at a concrete suppressed flush (counter reaches the
4096-frame threshold, channel active, payload closed) the producer indeed
writes to neither ring, but the peak accumulators are RESET to the `-70`
silence floor: the accumulated value `max (-20) (-30) = -20` is discarded,
refuting the claim that peaks keep accumulating across suppressed flushes. -/
theorem suppressed_flush_counterexample :
    run closedExample allZeroBuffer allZeroBuffer allZeroBuffer allZeroBuffer 6 (-30) (-30) =
      some { closedExample with
        numFramesSoFar := 0
        histogramActive := false
        highestLufsInValue := -70
        highestLufsOutValue := -70 } ∧
    max closedExample.highestLufsInValue (-30) = -20 ∧
    ¬ ((-70 : Rat) = -20) :=
  ⟨by decide, by decide, by decide⟩

/-- C2 (amended): on a suppressed flush — the frame counter reaches the flush
threshold, the channel is active but the payload's `closed` flag is set — the
producer writes to neither ring and deactivates the channel, and the peak
accumulators ARE reset to the `-70` silence floor exactly as on a normal
flush (the reset sits outside the `histogramActive` branch). -/
theorem suppressed_flush_no_write_resets_peaks
    (s : PluginState) (d : MasterMeHistogramFifos)
    (in0 in1 out0 out1 : Nat → FloatVal) (frames : Nat) (lufsIn lufsOut : Rat)
    (hfin : buffersFinite in0 in1 out0 out1 frames)
    (hf : flushReached s frames) (hact : s.histogramActive = true)
    (hshm : s.shm = some d) (hcl : d.closed = true) :
    run s in0 in1 out0 out1 frames lufsIn lufsOut =
      some { s with
        numFramesSoFar := (s.numFramesSoFar + frames) % uint32Mod - s.bufferSizeForHistogram
        histogramActive := false
        highestLufsInValue := -70
        highestLufsOutValue := -70 } := by
  rw [run_eq_runBody s in0 in1 out0 out1 frames lufsIn lufsOut hfin,
    runBody_flush_closed s d frames lufsIn lufsOut hf hact hshm hcl]

/-- C2 witness: the amended statement instantiated at the concrete suppressed
flush. -/
theorem suppressed_flush_no_write_resets_peaks_witness :
    run closedExample allZeroBuffer allZeroBuffer allZeroBuffer allZeroBuffer 6 (-30) (-30) =
      some { closedExample with
        numFramesSoFar :=
          (closedExample.numFramesSoFar + 6) % uint32Mod - closedExample.bufferSizeForHistogram
        histogramActive := false
        highestLufsInValue := -70
        highestLufsOutValue := -70 } :=
  suppressed_flush_no_write_resets_peaks closedExample closedExampleFifos
    allZeroBuffer allZeroBuffer allZeroBuffer allZeroBuffer 6 (-30) (-30)
    (by decide) (by decide) rfl rfl rfl

/-- C3: `bufferSizeChanged(x)` sets the flush threshold to
`max(kMinimumHistogramBufferSize, x)` for every `x` — in particular the
threshold is pinned to the floor whenever `x` is below it — and the
constructor applies the same formula to the host's initial buffer size. -/
theorem bufferSizeChanged_sets_max_floor (s : PluginState) (x hostBufferSize : Nat) :
    (bufferSizeChanged s x).bufferSizeForHistogram = max kMinimumHistogramBufferSize x ∧
    (init hostBufferSize).bufferSizeForHistogram =
      max kMinimumHistogramBufferSize hostBufferSize ∧
    (x ≤ kMinimumHistogramBufferSize →
      (bufferSizeChanged s x).bufferSizeForHistogram = kMinimumHistogramBufferSize) :=
  ⟨rfl, rfl, fun h => by simp [bufferSizeChanged, h]⟩

/-- C3 witness: a below-floor buffer size is clamped to the floor. -/
theorem bufferSizeChanged_sets_max_floor_witness :
    (bufferSizeChanged (init 512) 3).bufferSizeForHistogram = kMinimumHistogramBufferSize :=
  (bufferSizeChanged_sets_max_floor (init 512) 3 0).2.2 (by decide)

/-- C4: a callback with finite buffers updates both peak accumulators with
`max` against the instantaneous loudness readings and advances the frame
counter (mod 2^32) by the frames processed; when the counter does not reach
the threshold nothing else happens, and when it does with the channel active,
the payload attached and not closed, and both fifos bound, exactly one sample
— the accumulated peak — is appended to each of the two rings and both peaks
are reset to the `-70` silence floor. -/
theorem run_updates_peaks_and_flushes_once
    (s : PluginState) (d : MasterMeHistogramFifos)
    (in0 in1 out0 out1 : Nat → FloatVal) (frames : Nat) (lufsIn lufsOut : Rat)
    (hfin : buffersFinite in0 in1 out0 out1 frames) :
    (¬ flushReached s frames →
      run s in0 in1 out0 out1 frames lufsIn lufsOut =
        some { s with
          highestLufsInValue := max s.highestLufsInValue lufsIn
          highestLufsOutValue := max s.highestLufsOutValue lufsOut
          numFramesSoFar := (s.numFramesSoFar + frames) % uint32Mod }) ∧
    (flushReached s frames → s.histogramActive = true → s.shm = some d →
      d.closed = false → s.lufsInBound = true → s.lufsOutBound = true →
      run s in0 in1 out0 out1 frames lufsIn lufsOut =
        some { s with
          shm := some { d with
            lufsIn := d.lufsIn ++ [max s.highestLufsInValue lufsIn]
            lufsOut := d.lufsOut ++ [max s.highestLufsOutValue lufsOut] }
          numFramesSoFar := (s.numFramesSoFar + frames) % uint32Mod - s.bufferSizeForHistogram
          highestLufsInValue := -70
          highestLufsOutValue := -70 }) := by
  constructor
  · intro hnf
    rw [run_eq_runBody s in0 in1 out0 out1 frames lufsIn lufsOut hfin,
      runBody_not_flush s frames lufsIn lufsOut hnf]
  · intro hf hact hshm hcl hbin hbout
    rw [run_eq_runBody s in0 in1 out0 out1 frames lufsIn lufsOut hfin,
      runBody_flush_open s d frames lufsIn lufsOut hf hact hshm hcl hbin hbout]

/-- C4 witness: the flushing case at a concrete open channel. -/
theorem run_updates_peaks_and_flushes_once_witness :
    run openExample allZeroBuffer allZeroBuffer allZeroBuffer allZeroBuffer 6 (-30) (-30) =
      some openFlushResult :=
  (run_updates_peaks_and_flushes_once openExample openExampleFifos
      allZeroBuffer allZeroBuffer allZeroBuffer allZeroBuffer 6 (-30) (-30)
      (by decide)).2 (by decide) rfl rfl rfl rfl rfl

/-- C5: whenever a callback reaches the flush threshold, the frame counter is
reduced by exactly the threshold (not zeroed), so the overshoot past the
threshold carries over into the next window; this holds on every flush path,
suppressed or not. -/
theorem flush_carries_over_overshoot
    (s s' : PluginState) (in0 in1 out0 out1 : Nat → FloatVal) (frames : Nat)
    (lufsIn lufsOut : Rat)
    (hrun : run s in0 in1 out0 out1 frames lufsIn lufsOut = some s')
    (hf : flushReached s frames) :
    s'.numFramesSoFar = (s.numFramesSoFar + frames) % uint32Mod - s.bufferSizeForHistogram := by
  rw [run] at hrun
  by_cases hc : finiteCheckLoop in0 in1 out0 out1 frames = true
  · rw [if_pos hc] at hrun
    cases hrun
    exact runBody_counter_flush s frames lufsIn lufsOut hf
  · rw [if_neg hc] at hrun
    cases hrun

/-- C5 witness: a 7-frame callback overshoots the window by one frame and the
counter lands on 1, not 0. -/
theorem flush_carries_over_overshoot_witness :
    openFlushCarryResult.numFramesSoFar =
      (openExample.numFramesSoFar + 7) % uint32Mod - openExample.bufferSizeForHistogram :=
  flush_carries_over_overshoot openExample openFlushCarryResult
    allZeroBuffer allZeroBuffer allZeroBuffer allZeroBuffer 7 (-30) (-30)
    (by decide) (by decide)

/-- C6 counterexample: activating from a state whose peaks have accumulated
to `-20` zeroes the frame counter but leaves both peaks at `-20`, not at the
`-70` silence floor — refuting the claim that activation resets the peak
accumulators. -/
theorem activate_counterexample :
    (activate closedExample).numFramesSoFar = 0 ∧
    (activate closedExample).highestLufsInValue = -20 ∧
    (activate closedExample).highestLufsOutValue = -20 ∧
    ¬ ((-20 : Rat) = -70) :=
  ⟨rfl, rfl, rfl, by decide⟩

/-- C6 (amended): on every activation of the processing loop the frame
counter is zeroed and nothing else changes — in particular the peak
accumulators keep their values (they are reset only at flush boundaries). -/
theorem activate_zeroes_counter_only (s : PluginState) :
    activate s = { s with numFramesSoFar := 0 } :=
  rfl

/-- C7: if connecting the histogram shared-memory session fails (the connect
returns null), starting from a state with channel writes inactive and fifo
bindings consistent with the attachment, the plugin ends with
`histogramActive = false`, both fifo controls unbound and the shared payload
detached, and every subsequent callback with finite buffers completes
normally with the payload still detached and the channel still inactive (no
histogram sample can be written). -/
theorem failed_connect_keeps_metering_inert
    (s : PluginState) (value : String)
    (hact : s.histogramActive = false)
    (hbound : s.shm = none → s.lufsInBound = false ∧ s.lufsOutBound = false) :
    (setState s "histogram" value none).histogramActive = false ∧
    (setState s "histogram" value none).lufsInBound = false ∧
    (setState s "histogram" value none).lufsOutBound = false ∧
    (setState s "histogram" value none).shm = none ∧
    (∀ in0 in1 out0 out1 frames lufsIn lufsOut,
      buffersFinite in0 in1 out0 out1 frames →
      ∃ t, run (setState s "histogram" value none) in0 in1 out0 out1 frames lufsIn lufsOut =
          some t ∧ t.shm = none ∧ t.histogramActive = false) := by
  have hkey : ¬ ("histogram" : String) = "mode" := by decide
  have hbase : (setState s "histogram" value none).histogramActive = false ∧
      (setState s "histogram" value none).lufsInBound = false ∧
      (setState s "histogram" value none).lufsOutBound = false ∧
      (setState s "histogram" value none).shm = none := by
    rw [setState, if_neg hkey, if_pos rfl]
    cases hs : s.shm with
    | none => simpa [hs] using ⟨hact, (hbound hs).1, (hbound hs).2⟩
    | some d => simp [hs, hact]
  refine ⟨hbase.1, hbase.2.1, hbase.2.2.1, hbase.2.2.2, ?_⟩
  intro in0 in1 out0 out1 frames lufsIn lufsOut hfin
  refine ⟨runBody (setState s "histogram" value none) frames lufsIn lufsOut,
    run_eq_runBody _ in0 in1 out0 out1 frames lufsIn lufsOut hfin, ?_, ?_⟩
  · rw [(runBody_inactive _ frames lufsIn lufsOut hbase.1).1]
    exact hbase.2.2.2
  · exact (runBody_inactive _ frames lufsIn lufsOut hbase.1).2

/-- C7 witness: a fresh plugin whose first connect attempt fails. -/
theorem failed_connect_keeps_metering_inert_witness :
    (setState (init 512) "histogram" "mm-histogram" none).histogramActive = false ∧
    (setState (init 512) "histogram" "mm-histogram" none).shm = none :=
  ⟨(failed_connect_keeps_metering_inert (init 512) "mm-histogram" (by decide) (by decide)).1,
   (failed_connect_keeps_metering_inert (init 512) "mm-histogram" (by decide) (by decide)).2.2.2.1⟩

/-- C8: the histogram-buffer-size output parameter reads back exactly the
current `bufferSizeForHistogram`; that field is set to the
`max`-with-the-floor formula by construction and by every buffer-size-change
notification, and no other event changes it. -/
theorem histogram_buffer_size_param_reports_window (s : PluginState) (x : Nat) :
    getExtraParameterValue s kExtraParameterHistogramBufferSize =
      (s.bufferSizeForHistogram : Rat) ∧
    (bufferSizeChanged s x).bufferSizeForHistogram = max kMinimumHistogramBufferSize x ∧
    (init x).bufferSizeForHistogram = max kMinimumHistogramBufferSize x ∧
    (∀ e s', step s e = some s' → e.isBufferSizeChanged = false →
      s'.bufferSizeForHistogram = s.bufferSizeForHistogram) :=
  ⟨rfl, rfl, rfl, fun e s' hstep hne => step_bufferSize s s' e hne hstep⟩

/-- C8 witness: reading the parameter on a concrete state, and an `activate`
event leaving the window untouched. -/
theorem histogram_buffer_size_param_reports_window_witness :
    getExtraParameterValue (init 100) kExtraParameterHistogramBufferSize =
      ((init 100).bufferSizeForHistogram : Rat) ∧
    (activate (init 100)).bufferSizeForHistogram = (init 100).bufferSizeForHistogram :=
  ⟨(histogram_buffer_size_param_reports_window (init 100) 0).1,
   (histogram_buffer_size_param_reports_window (init 100) 0).2.2.2
     Event.activate (activate (init 100)) rfl rfl⟩

/-- C9: when every sample of every frame in all four channel buffers is
finite, the per-sample validation loop passes — no `__builtin_unreachable()`
branch is taken — and the callback's behaviour is fully defined: `run`
returns exactly the deterministic `runBody` result. -/
theorem finite_buffers_make_run_defined
    (s : PluginState) (in0 in1 out0 out1 : Nat → FloatVal) (frames : Nat)
    (lufsIn lufsOut : Rat)
    (hfin : buffersFinite in0 in1 out0 out1 frames) :
    finiteCheckLoop in0 in1 out0 out1 frames = true ∧
    run s in0 in1 out0 out1 frames lufsIn lufsOut =
      some (runBody s frames lufsIn lufsOut) := by
  have h := finiteCheckLoop_eq_true in0 in1 out0 out1 frames hfin
  exact ⟨h, by rw [run, if_pos h]⟩

/-- C9 witness: an 8-frame silent callback is fully defined. -/
theorem finite_buffers_make_run_defined_witness :
    finiteCheckLoop allZeroBuffer allZeroBuffer allZeroBuffer allZeroBuffer 8 = true ∧
    run (init 512) allZeroBuffer allZeroBuffer allZeroBuffer allZeroBuffer 8 (-14) (-15) =
      some (runBody (init 512) 8 (-14) (-15)) :=
  finite_buffers_make_run_defined (init 512)
    allZeroBuffer allZeroBuffer allZeroBuffer allZeroBuffer 8 (-14) (-15) (by decide)

/-- C10: assuming each callback processes at most one window of frames
(`frames ≤ bufferSizeForHistogram`), a defined callback preserves
`numFramesSoFar < bufferSizeForHistogram`, and a single callback grows each
ring by at most one sample. -/
theorem run_preserves_counter_invariant
    (s s' : PluginState) (in0 in1 out0 out1 : Nat → FloatVal) (frames : Nat)
    (lufsIn lufsOut : Rat)
    (hrun : run s in0 in1 out0 out1 frames lufsIn lufsOut = some s')
    (hinv : s.numFramesSoFar < s.bufferSizeForHistogram)
    (hframes : frames ≤ s.bufferSizeForHistogram) :
    s'.numFramesSoFar < s'.bufferSizeForHistogram ∧
    (∀ d d', s.shm = some d → s'.shm = some d' →
      d'.lufsIn.length ≤ d.lufsIn.length + 1 ∧ d'.lufsOut.length ≤ d.lufsOut.length + 1) := by
  rw [run] at hrun
  by_cases hc : finiteCheckLoop in0 in1 out0 out1 frames = true
  case neg => rw [if_neg hc] at hrun; cases hrun
  rw [if_pos hc] at hrun
  cases hrun
  refine ⟨?_, fun d d' hd hd' => runBody_shm_growth s frames lufsIn lufsOut d d' hd hd'⟩
  rw [runBody_bufferSize]
  by_cases hf : flushReached s frames
  · rw [runBody_counter_flush s frames lufsIn lufsOut hf]
    rw [flushReached] at hf
    rw [uint32Mod] at *
    omega
  · rw [runBody_not_flush s frames lufsIn lufsOut hf]
    rw [flushReached] at hf
    simp only []
    rw [uint32Mod] at *
    omega

/-- C10 witness: the invariant holds across the concrete flushing callback. -/
theorem run_preserves_counter_invariant_witness :
    openFlushResult.numFramesSoFar < openFlushResult.bufferSizeForHistogram :=
  (run_preserves_counter_invariant openExample openFlushResult
      allZeroBuffer allZeroBuffer allZeroBuffer allZeroBuffer 6 (-30) (-30)
      (by decide) (by decide) (by decide)).1

end MasterMePlugin
